import Mathlib

/-
Verification of the iPOPO RemoteServiceAdmin coordinator
(src/pelix/rsa/remoteserviceadmin.py) against its natural-language
specification.

The Python module is shallowly embedded below.  Objects with identity
(export/import endpoints and registrations) live in explicit heaps keyed by
Nat ids inside a `World` record; stateful methods become functions
`World -> ... -> World` (or `(Except Err _) × World` where the Python code
can raise).  Python exceptions are modelled as `Except Err` with the error
message naming the Python exception class.  Provider plug-ins (Exporter,
Importer) and admin-event listeners are duck-typed in the source, so they
are modelled as records of functions.  Ghost observation fields
(`delivered`, `published`, `providerCalls`, `errorLog`) record externally
visible effects: listener invocations, published events, provider calls
and logged errors; they are written only at the points where the source
performs the corresponding call.
-/

namespace Pelix

/-- Python exceptions are modelled by their message. -/
abbrev Err := String

/-- Modelled from the spec: endpoint property maps produced by
`make_endpoint_props` (the helpers in pelix/rsa/__init__.py are not under
src/); carries the identity, interfaces and configuration types that the
rest of the model reads back. -/
structure Props where
  endpointId : String := ""
  interfaces : List String := []
  configs : List String := []
  extra : List (String × String) := []
deriving DecidableEq

/-- Modelled from the spec: `EndpointDescription`
(pelix/rsa/endpointdescription.py is not under src/): globally unique
endpoint id, exported interface names, remote-supported configuration
types, and a free-form property mapping. -/
structure EndpointDescription where
  edId : String
  interfaces : List String := []
  remoteConfigs : List String := []
  props : List (String × String) := []
deriving DecidableEq

/-- Modelled from the spec: two descriptions denote the same service when
they carry the same globally unique endpoint id. -/
def EndpointDescription.is_same_service (a b : EndpointDescription) : Bool :=
  a.edId == b.edId

/-- Modelled from the spec: `EndpointDescription.fromprops` builds a
description from an endpoint property map. -/
def EndpointDescription.fromprops (p : Props) : EndpointDescription :=
  { edId := p.endpointId, interfaces := p.interfaces,
    remoteConfigs := p.configs, props := p.extra }

/-- Modelled from the spec: a service reference carries a numeric service
id, its interface-name list (objectClass) and the export-related
properties the coordinator reads; equality is identity of the reference. -/
structure ServiceReference where
  serviceId : Nat
  objectClass : List String := []
  exportedInterfaces : List String := []
  exportedConfigs : Option (List String) := none
deriving DecidableEq

/-- Caller-supplied overriding properties for `export_service` (only the
keys the embedded code reads). -/
structure OverridingProps where
  interfaces? : Option (List String) := none
  configs? : Option (List String) := none
deriving DecidableEq

/-- Modelled from the spec: `pelix.rsa.get_exported_interfaces` (not under
src/) resolves the exported-interface list from the service properties
overridden by the caller-supplied properties. -/
def getExportedInterfaces (sr : ServiceReference) (ov : OverridingProps) : List String :=
  match ov.interfaces? with
  | some l => l
  | none => sr.exportedInterfaces

/-- The merged export properties: service properties overridden by
`overriding_props`, looked up at SERVICE_EXPORTED_CONFIGS
(`export_props[rsa.SERVICE_EXPORTED_CONFIGS]`; `none` models a KeyError). -/
def resolvedConfigs (sr : ServiceReference) (ov : OverridingProps) : Option (List String) :=
  match ov.configs? with
  | some c => some c
  | none => sr.exportedConfigs

/-- Modelled from the spec: `EndpointDescription(svc_ref, errorprops)` with
`errorprops = rsa.get_edef_props_error(svc_ref.get_property(objectClass))`
(both helpers are not under src/): the pre-computed "errored" description
for a failed export attempt. -/
def erroredEndpointDescription (sr : ServiceReference) : EndpointDescription :=
  { edId := "errored:" ++ toString sr.serviceId, interfaces := sr.objectClass }

/-- Modelled from the spec: the merged export property map handed to the
matching exporters. -/
def mergedExportProps (sr : ServiceReference) (ov : OverridingProps) (cfgs : List String) : Props :=
  { interfaces := getExportedInterfaces sr ov, configs := cfgs }

/-- A provider implementing the Exporter duck-typed contract (the methods
RemoteServiceAdmin.export_service and _ExportEndpoint call on it). -/
structure Exporter where
  id : String
  handles : List String → Bool
  makeEndpointProps : List String → ServiceReference → Props → Except Err Props
  exportService : ServiceReference → Props → Except Err EndpointDescription
  unexportService : EndpointDescription → Except Err Bool

/-- A provider implementing the Importer duck-typed contract. -/
structure Importer where
  id : String
  handles : List String → Bool
  makeProxyProps : EndpointDescription → Except Err Props
  importService : EndpointDescription → Props → Except Err Nat
  unimportService : EndpointDescription → Except Err Bool

/-- RemoteServiceAdminEvent: event type code (the class constants), the
provider id, the optional exception and the optional description it was
constructed with.  NOTE fromexportunreg/fromimportunreg drop their
exception argument (the source constructor call omits exception=), which
the embedding reproduces. -/
structure RSAEvent where
  typ : Nat
  providerid : Option String := none
  exception : Option Err := none
  ed : Option EndpointDescription := none
deriving DecidableEq

/-- An admin-event listener: `remote_admin_event` either returns or raises. -/
abbrev Listener := Option RSAEvent → Except Err Unit

/-- State of a `_ExportEndpoint` object: back-reference to the rsa
(modelled as a Bool: attached or nulled), owning exporter, current
description, exported service reference and the active-registration set.
All but `rsaAttached` are nulled by a successful `close`. -/
structure ExportEndpointState where
  rsaAttached : Bool
  exporter : Option Exporter
  ed : Option EndpointDescription
  svcRef : Option ServiceReference
  activeRegistrations : List Nat

/-- State of an `ExportReference`: exactly one of endpoint / (exception,
errored) is set at construction; `close` nulls the endpoint pointer. -/
structure ExportRefState where
  endpoint : Option Nat
  exception : Option Err
  errored : Option EndpointDescription

/-- State of an `ExportRegistration`: its reference (nulled on close), its
own rsa back-reference, the closed flag and the never-assigned
`__updateexception` field. -/
structure ExportRegState where
  exportref : Option ExportRefState
  rsaAttached : Bool
  closed : Bool
  updateexception : Option Err

/-- State of a `_ImportEndpoint` object. -/
structure ImportEndpointState where
  rsaAttached : Bool
  importer : Option Importer
  ed : Option EndpointDescription
  svcReg : Option Nat
  activeRegistrations : List Nat

/-- State of an `ImportReference`. -/
structure ImportRefState where
  endpoint : Option Nat
  exception : Option Err
  errored : Option EndpointDescription

/-- State of an `ImportRegistration` (it has no updateexception field). -/
structure ImportRegState where
  importref : Option ImportRefState
  rsaAttached : Bool
  closed : Bool

/-- The whole mutable state: the RemoteServiceAdmin component instance
(its two registries, bound providers and listeners) plus the heaps of
endpoint / registration objects and the ghost observation logs. -/
structure World where
  exporters : List Exporter := []
  importers : List Importer := []
  listeners : List Listener := []
  expEndpoints : List (Nat × ExportEndpointState) := []
  expRegs : List (Nat × ExportRegState) := []
  exportedRegs : List Nat := []
  impEndpoints : List (Nat × ImportEndpointState) := []
  impRegs : List (Nat × ImportRegState) := []
  importedRegs : List Nat := []
  delivered : List (Nat × Option RSAEvent) := []
  published : List (Option RSAEvent) := []
  errorLog : List Err := []
  providerCalls : List (String × String) := []
  nextId : Nat := 0

/-- Association-list lookup (object heap access). -/
def lookupA {K : Type} {α : Type} [DecidableEq K] : List (K × α) → K → Option α
  | [], _ => none
  | (k', v') :: rest, k => if k' = k then some v' else lookupA rest k

/-- Association-list update: replace in place, append when absent. -/
def setA {K : Type} {α : Type} [DecidableEq K] : List (K × α) → K → α → List (K × α)
  | [], k, v => [(k, v)]
  | (k', v') :: rest, k, v =>
      if k' = k then (k, v) :: rest else (k', v') :: setA rest k v

/-- Python `list.remove`: drop the first occurrence; `none` models the
ValueError raised when the element is absent. -/
def pyRemove {α : Type} [DecidableEq α] : List α → α → Option (List α)
  | [], _ => none
  | a :: rest, x =>
      if a = x then some rest else (pyRemove rest x).map (fun l => a :: l)

def World.getExpEndpoint (w : World) (eid : Nat) : Option ExportEndpointState :=
  lookupA w.expEndpoints eid

def World.setExpEndpoint (w : World) (eid : Nat) (st : ExportEndpointState) : World :=
  { w with expEndpoints := setA w.expEndpoints eid st }

def World.getExpReg (w : World) (rid : Nat) : Option ExportRegState :=
  lookupA w.expRegs rid

def World.setExpReg (w : World) (rid : Nat) (st : ExportRegState) : World :=
  { w with expRegs := setA w.expRegs rid st }

def World.getImpEndpoint (w : World) (eid : Nat) : Option ImportEndpointState :=
  lookupA w.impEndpoints eid

def World.setImpEndpoint (w : World) (eid : Nat) (st : ImportEndpointState) : World :=
  { w with impEndpoints := setA w.impEndpoints eid st }

def World.getImpReg (w : World) (rid : Nat) : Option ImportRegState :=
  lookupA w.impRegs rid

def World.setImpReg (w : World) (rid : Nat) (st : ImportRegState) : World :=
  { w with impRegs := setA w.impRegs rid st }

/-- Ghost: record a call made on a provider (provider id, method name). -/
def World.logProviderCall (w : World) (pid m : String) : World :=
  { w with providerCalls := w.providerCalls ++ [(pid, m)] }

/-- Ghost: record a logged error (`_logger.error`). -/
def World.logError (w : World) (e : Err) : World :=
  { w with errorLog := w.errorLog ++ [e] }

/-- `RemoteServiceAdmin._publish_event` body: deliver the event to each
listener in registration order; a raising listener is logged and delivery
continues.  `delivered` records each invocation of `remote_admin_event`
(listener index in registration order, event). -/
def publishEventGo (ev : Option RSAEvent) : List Listener → Nat → World → World
  | [], _, w => w
  | l :: rest, i, w =>
      let w1 := { w with delivered := w.delivered ++ [(i, ev)] }
      let w2 := match l ev with
        | .ok _ => w1
        | .error e => w1.logError e
      publishEventGo ev rest (i + 1) w2

/-- `RemoteServiceAdmin._publish_event(event)`.  The `published` ghost
field records that the event was handed to the bus (export_service can
publish a literal `None` event, hence `Option`). -/
def publish_event (w : World) (ev : Option RSAEvent) : World :=
  let w0 := { w with published := w.published ++ [ev] }
  publishEventGo ev w0.listeners 0 w0

/-- `_ExportEndpoint.exporterid`: `self.__exporter.get_id()`; raises
AttributeError once the endpoint was closed and `__exporter` nulled. -/
def ExportEndpoint.exporterid (w : World) (eid : Nat) : Except Err String :=
  match w.getExpEndpoint eid with
  | none => .error ("dangling export endpoint")
  | some st =>
      match st.exporter with
      | none => .error ("AttributeError: NoneType object has no attribute get_id")
      | some ex => .ok ex.id

/-- `ExportReference.exporterid`: None when the endpoint pointer is null,
else the endpoint's exporter id. -/
def ExportReference.exporterid (w : World) (ref : ExportRefState) : Except Err (Option String) :=
  match ref.endpoint with
  | none => .ok none
  | some eid => (ExportEndpoint.exporterid w eid).map some

/-- `ExportReference.reference`: None when the endpoint pointer is null,
else `_ExportEndpoint.reference()` (the stored `__svc_ref`, itself None
after the endpoint closed). -/
def ExportReference.reference (w : World) (ref : ExportRefState) : Option ServiceReference :=
  ref.endpoint.bind (fun eid => (w.getExpEndpoint eid).bind (fun st => st.svcRef))

/-- `ExportReference.description`: None when the endpoint pointer is null
(so a captured-failure reference yields None: the stored errored
description is never returned), else the endpoint's `__ed`. -/
def ExportReference.description (w : World) (ref : ExportRefState) : Option EndpointDescription :=
  ref.endpoint.bind (fun eid => (w.getExpEndpoint eid).bind (fun st => st.ed))

/-- `ExportRegistration.reference`: None once closed, else the
reference's view.  (When `closed` is false the registration's
`__exportref` is always non-null; the `none` fallthrough is a model
artifact for dangling ids.) -/
def ExportRegistration.reference (w : World) (rid : Nat) : Option ServiceReference :=
  match w.getExpReg rid with
  | none => none
  | some st =>
      if st.closed then none
      else st.exportref.bind (fun ref => ExportReference.reference w ref)

/-- `ExportRegistration.exception`: after close it reads the
`__updateexception` field (initialized to None and never assigned),
before close the reference's captured exception. -/
def ExportRegistration.exception (w : World) (rid : Nat) : Option Err :=
  match w.getExpReg rid with
  | none => none
  | some st =>
      if st.closed then st.updateexception
      else st.exportref.bind (fun ref => ref.exception)

/-- `ExportRegistration.description`: None once closed, else the
reference's description. -/
def ExportRegistration.description (w : World) (rid : Nat) : Option EndpointDescription :=
  match w.getExpReg rid with
  | none => none
  | some st =>
      if st.closed then none
      else st.exportref.bind (fun ref => ExportReference.description w ref)

/-- `ExportRegistration._match(sr, cid)`: False when our reference is
None; otherwise compare references; with a non-None cid the source then
calls `self.containerid()`, a method that does not exist, raising
AttributeError. -/
def ExportRegistration.matchRef (w : World) (rid : Nat) (sr : ServiceReference)
    (cid : Option String) : Except Err Bool :=
  match ExportRegistration.reference w rid with
  | none => .ok false
  | some oursr =>
      match cid with
      | none => .ok (oursr = sr)
      | some _ =>
          .error ("AttributeError: ExportRegistration object has no attribute containerid")

/-- `RemoteServiceAdmin._remove_exported_service`: `list.remove` on the
export registry (ValueError when absent, reported as `none`). -/
def removeExportedService (w : World) (rid : Nat) : Option World :=
  (pyRemove w.exportedRegs rid).map (fun l => { w with exportedRegs := l })

/-- `_ExportEndpoint.close(export_reg)`: remove the registration from the
active set (False when absent); when the set became empty, call the
exporter's `unexport_service` inside a try (log + False on failure), and
on success detach from the rsa registry (that call is itself wrapped in a
try: log + False on failure) and null the internal references. -/
def ExportEndpoint.close (w : World) (eid rid : Nat) : Bool × World :=
  match w.getExpEndpoint eid with
  | none => (false, w)
  | some st =>
      match pyRemove st.activeRegistrations rid with
      | none => (false, w)
      | some newActive =>
          let st1 := { st with activeRegistrations := newActive }
          let w1 := w.setExpEndpoint eid st1
          if newActive.length = 0 then
            match st1.exporter, st1.ed with
            | some ex, some ed =>
                let w2 := w1.logProviderCall ex.id ("unexport_service")
                match ex.unexportService ed with
                | .error e => (false, w2.logError e)
                | .ok removed =>
                    if removed then
                      if st1.rsaAttached then
                        match removeExportedService w2 rid with
                        | none =>
                            (false, w2.logError ("ValueError: registration not in registry"))
                        | some w3 =>
                            let st2 : ExportEndpointState :=
                              { st1 with ed := none, exporter := none, svcRef := none, rsaAttached := false }
                            (true, w3.setExpEndpoint eid st2)
                      else
                        (false, w2.logError ("AttributeError: rsa is None"))
                    else (false, w2)
            | _, _ =>
                (false, w1.logError ("AttributeError: unexport on closed endpoint"))
          else (false, w1)

/-- `ExportReference.close(export_reg)`: False when the endpoint pointer
is already null; else close the endpoint and null the pointer. -/
def ExportReference.close (w : World) (ref : ExportRefState) (rid : Nat) :
    Bool × ExportRefState × World :=
  match ref.endpoint with
  | none => (false, ref, w)
  | some eid =>
      let (result, w1) := ExportEndpoint.close w eid rid
      (result, { ref with endpoint := none }, w1)

/-- `ExportRegistration.close()`: under the lock, when not yet closed,
capture provider id / exception / description / reference, close the
reference, null it and set the closed flag; outside the lock publish an
EXPORT_UNREGISTRATION event only when the endpoint actually closed and an
rsa is attached (and then null the rsa back-reference).  The
`fromexportunreg` constructor call drops the captured exception.  The
provider-id read can raise (see `ExportEndpoint.exporterid`); that error
propagates before any mutation. -/
def ExportRegistration.close (w : World) (rid : Nat) : Except Err Unit × World :=
  match w.getExpReg rid with
  | none => (.ok (), w)
  | some st =>
      if st.closed then (.ok (), w)
      else
        match st.exportref with
        | none => (.error ("AttributeError: exportref is None"), w)
        | some ref =>
            match ExportReference.exporterid w ref with
            | .error e => (.error e, w)
            | .ok providerid =>
                let ed := ExportReference.description w ref
                let (publish, _, w1) := ExportReference.close w ref rid
                let st1 := { st with exportref := none, closed := true }
                let w2 := w1.setExpReg rid st1
                if publish && st.rsaAttached then
                  let ev : RSAEvent :=
                    { typ := 3, providerid := providerid, exception := none, ed := ed }
                  let w3 := publish_event w2 (some ev)
                  (.ok (), w3.setExpReg rid { st1 with rsaAttached := false })
                else (.ok (), w2)

/-- `_ImportEndpoint.importerid`: None when the importer was nulled
(this side checks for None, unlike the export side). -/
def ImportEndpoint.importerid (w : World) (eid : Nat) : Option String :=
  (w.getImpEndpoint eid).bind (fun st => st.importer.map (fun imp => imp.id))

/-- `_ImportEndpoint._matched(ed)`: False when the active-registration set
is empty, else whether the stored description is the same service. -/
def ImportEndpoint.matched (w : World) (eid : Nat) (ed : EndpointDescription) : Bool :=
  match w.getImpEndpoint eid with
  | none => false
  | some st =>
      if st.activeRegistrations.length = 0 then false
      else
        match st.ed with
        | some e => e.is_same_service ed
        | none => false

/-- `ImportReference.importerid`. -/
def ImportReference.importerid (w : World) (ref : ImportRefState) : Option String :=
  ref.endpoint.bind (fun eid => ImportEndpoint.importerid w eid)

/-- `ImportReference._matched(ed)`: returns None (falsy, collapsed to
false) when the endpoint pointer is null. -/
def ImportReference.matched (w : World) (ref : ImportRefState) (ed : EndpointDescription) : Bool :=
  match ref.endpoint with
  | none => false
  | some eid => ImportEndpoint.matched w eid ed

/-- `ImportReference.description`: the source reads `self.errored`, an
attribute that does not exist (the field is name-mangled `__errored`), so
a captured-failure reference raises AttributeError; a live reference
returns the endpoint's description. -/
def ImportReference.description (w : World) (ref : ImportRefState) :
    Except Err (Option EndpointDescription) :=
  match ref.endpoint with
  | none => .error ("AttributeError: ImportReference object has no attribute errored")
  | some eid => .ok ((w.getImpEndpoint eid).bind (fun st => st.ed))

/-- `ImportRegistration._matched(ed)`: False once closed. -/
def ImportRegistration.matched (w : World) (rid : Nat) (ed : EndpointDescription) : Bool :=
  match w.getImpReg rid with
  | none => false
  | some st =>
      if st.closed then false
      else
        match st.importref with
        | none => false
        | some ref => ImportReference.matched w ref ed

/-- `ImportRegistration.exception`: None once closed, else the captured
exception. -/
def ImportRegistration.exception (w : World) (rid : Nat) : Option Err :=
  match w.getImpReg rid with
  | none => none
  | some st =>
      if st.closed then none
      else st.importref.bind (fun ref => ref.exception)

/-- `ImportRegistration.importerid`: None once closed. -/
def ImportRegistration.importerid (w : World) (rid : Nat) : Option String :=
  match w.getImpReg rid with
  | none => none
  | some st =>
      if st.closed then none
      else st.importref.bind (fun ref => ImportReference.importerid w ref)

/-- `ImportRegistration.description`: None once closed, else the
reference's description (which can raise for failure references). -/
def ImportRegistration.description (w : World) (rid : Nat) :
    Except Err (Option EndpointDescription) :=
  match w.getImpReg rid with
  | none => .ok none
  | some st =>
      if st.closed then .ok none
      else
        match st.importref with
        | none => .ok none
        | some ref => ImportReference.description w ref

/-- `RemoteServiceAdmin._remove_imported_service`: `list.remove` on
the imported-services registry (ValueError when absent, `none`). -/
def removeImportedService (w : World) (rid : Nat) : Option World :=
  (pyRemove w.importedRegs rid).map (fun l => { w with importedRegs := l })

/-- `_ImportEndpoint.close(import_reg)`: remove the registration from the
active set (False when absent); when the set became empty, call
`unimport_service` inside a try (log + False on failure); on success call
`self.__rsa._remove_imported_service` WITHOUT a try (a ValueError there,
or an AttributeError when the rsa was nulled, propagates to the caller),
then null the internal references. -/
def ImportEndpoint.close (w : World) (eid rid : Nat) : Except Err Bool × World :=
  match w.getImpEndpoint eid with
  | none => (.ok false, w)
  | some st =>
      match pyRemove st.activeRegistrations rid with
      | none => (.ok false, w)
      | some newActive =>
          let st1 := { st with activeRegistrations := newActive }
          let w1 := w.setImpEndpoint eid st1
          if newActive.length = 0 then
            match st1.importer, st1.ed with
            | some imp, some ed =>
                let w2 := w1.logProviderCall imp.id ("unimport_service")
                match imp.unimportService ed with
                | .error e => (.ok false, w2.logError e)
                | .ok removed =>
                    if removed then
                      if st1.rsaAttached then
                        match removeImportedService w2 rid with
                        | none => (.error ("ValueError: registration not in registry"), w2)
                        | some w3 =>
                            let st2 : ImportEndpointState :=
                              { st1 with svcReg := none, importer := none, ed := none, rsaAttached := false }
                            (.ok true, w3.setImpEndpoint eid st2)
                      else
                        (.error ("AttributeError: NoneType has no attribute _remove_imported_service"), w2)
                    else (.ok false, w2)
            | _, _ =>
                (.ok false, w1.logError ("AttributeError: unimport on closed endpoint"))
          else (.ok false, w1)

/-- `ImportReference.close(import_reg)`: False when the endpoint pointer
is already null; else close the endpoint and null the pointer (left
intact when the endpoint close raised). -/
def ImportReference.close (w : World) (ref : ImportRefState) (rid : Nat) :
    Except Err Bool × ImportRefState × World :=
  match ref.endpoint with
  | none => (.ok false, ref, w)
  | some eid =>
      match ImportEndpoint.close w eid rid with
      | (.error e, w1) => (.error e, ref, w1)
      | (.ok result, w1) => (.ok result, { ref with endpoint := none }, w1)

/-- `ImportRegistration.close()`: like the export side, but the captured
description read goes through `ImportReference.description`, which raises
for captured-failure references (leaving the registration not closed),
and the endpoint close itself can raise after partial mutation. -/
def ImportRegistration.close (w : World) (rid : Nat) : Except Err Unit × World :=
  match w.getImpReg rid with
  | none => (.ok (), w)
  | some st =>
      if st.closed then (.ok (), w)
      else
        match st.importref with
        | none => (.error ("AttributeError: importref is None"), w)
        | some ref =>
            let providerid := ImportReference.importerid w ref
            match ImportReference.description w ref with
            | .error e => (.error e, w)
            | .ok ed =>
                match ImportReference.close w ref rid with
                | (.error e, _, w1) => (.error e, w1)
                | (.ok publish, _, w1) =>
                    let st1 := { st with importref := none, closed := true }
                    let w2 := w1.setImpReg rid st1
                    if publish && st.rsaAttached then
                      let ev : RSAEvent :=
                        { typ := 4, providerid := providerid, exception := none, ed := ed }
                      let w3 := publish_event w2 (some ev)
                      (.ok (), w3.setImpReg rid { st1 with rsaAttached := false })
                    else (.ok (), w2)

/-- `RemoteServiceAdmin._add_exported_service`: append under the registry
lock. -/
def addExportedService (w : World) (rid : Nat) : World :=
  { w with exportedRegs := w.exportedRegs ++ [rid] }

/-- `RemoteServiceAdmin._add_imported_service`: append under the registry
lock. -/
def addImportedService (w : World) (rid : Nat) : World :=
  { w with importedRegs := w.importedRegs ++ [rid] }

/-- `ExportRegistration.fromexception(exception, errored)`: allocate a
registration wrapping a captured-failure reference; its rsa
back-reference is None and `__updateexception` is initialized to None. -/
def allocExpRegFromException (w : World) (e : Err) (errored : EndpointDescription) :
    Nat × World :=
  let rid := w.nextId
  let st : ExportRegState :=
    { exportref := some { endpoint := none, exception := some e, errored := some errored },
      rsaAttached := false, closed := false, updateexception := none }
  (rid, { w with nextId := rid + 1, expRegs := (rid, st) :: w.expRegs })

/-- `ExportRegistration.fromendpoint(rsa, exporter, ed, svc_ref)`:
allocate a fresh `_ExportEndpoint` and a registration added to its
active set, wrapping a live reference. -/
def allocExpRegFromEndpoint (w : World) (ex : Exporter) (ed : EndpointDescription)
    (sr : ServiceReference) : Nat × World :=
  let eid := w.nextId
  let rid := w.nextId + 1
  let est : ExportEndpointState :=
    { rsaAttached := true, exporter := some ex, ed := some ed, svcRef := some sr,
      activeRegistrations := [rid] }
  let rst : ExportRegState :=
    { exportref := some { endpoint := some eid, exception := none, errored := none },
      rsaAttached := true, closed := false, updateexception := none }
  let w1 : World :=
    { w with
        nextId := w.nextId + 2
        expEndpoints := (eid, est) :: w.expEndpoints
        expRegs := (rid, rst) :: w.expRegs }
  (rid, w1)

/-- The registry scan inside export_service:
`for reg in self._exported_regs: if reg._match(svc_ref, exporterid): ...`.
An exception raised by `_match` (which happens for every live
registration, since `containerid` does not exist) aborts the whole call. -/
def collectMatching (w : World) (regs : List Nat) (sr : ServiceReference) (cid : String) :
    Except Err (List Nat) :=
  match regs with
  | [] => .ok []
  | r :: rest =>
      match ExportRegistration.matchRef w r sr (some cid) with
      | .error e => .error e
      | .ok b =>
          match collectMatching w rest sr cid with
          | .error e => .error e
          | .ok tl => .ok (if b then r :: tl else tl)

/-- The per-exporter loop of `RemoteServiceAdmin.export_service` plus the
trailing event publication.  Loop state: the current world, the mutable
local `errored` (rebound after a successful `make_endpoint_props`),
`result_regs` and `result_events`.  Branches, in source order:
registry-scan (aborts on the `_match` AttributeError); a non-empty
found_regs set reaches `ExportRegistration.fromreg(self, found_reg)`,
which raises TypeError (the classmethod takes one argument besides cls);
a fresh provider export happens only while `result_regs` is still empty;
a provider export failure reaches `fromexporterror` called with three of
its four required arguments, raising TypeError. -/
def exportLoop (w : World) (exps : List Exporter) (sr : ServiceReference)
    (intfs : List String) (exportProps : Props) (errored : EndpointDescription)
    (resultRegs : List Nat) (resultEvents : List (Option RSAEvent)) :
    Except Err (List Nat) × World :=
  match exps with
  | [] =>
      let w1 := resultEvents.foldl (fun acc ev => publish_event acc ev) w
      (.ok resultRegs, w1)
  | ex :: rest =>
      match collectMatching w w.exportedRegs sr ex.id with
      | .error e => (.error e, w)
      | .ok foundRegs =>
          if foundRegs.length > 0 then
            (.error ("TypeError: fromreg takes 2 positional arguments but 3 were given"), w)
          else if resultRegs.length = 0 then
            let w1 := w.logProviderCall ex.id ("make_endpoint_props")
            match ex.makeEndpointProps intfs sr exportProps with
            | .error e =>
                let (rid, w2) := allocExpRegFromException w1 e errored
                let w3 := addExportedService w2 rid
                exportLoop w3 rest sr intfs exportProps errored
                  (resultRegs ++ [rid]) (resultEvents ++ [none])
            | .ok edProps =>
                let errored1 := EndpointDescription.fromprops edProps
                let w2 := w1.logProviderCall ex.id ("export_service")
                match ex.exportService sr edProps with
                | .ok exportEd =>
                    let (rid, w3) := allocExpRegFromEndpoint w2 ex exportEd sr
                    let w4 := addExportedService w3 rid
                    let ev : RSAEvent :=
                      { typ := 2, providerid := some ex.id, exception := none,
                        ed := some exportEd }
                    exportLoop w4 rest sr intfs exportProps errored1
                      (resultRegs ++ [rid]) (resultEvents ++ [some ev])
                | .error _ =>
                    (.error ("TypeError: fromexporterror missing 1 required positional argument"), w2)
          else
            exportLoop w rest sr intfs exportProps errored resultRegs resultEvents

/-- `RemoteServiceAdmin.export_service(svc_ref, overriding_props)`.
Argument checks raise ArgumentError / KeyError synchronously.  With zero
matching exporters a single failed registration (capturing a
SelectExporterError) is created, added to the registry and returned, and
the per-exporter loop together with its event publication is skipped
(`result_regs` is non-empty, so the `if len(result_regs) == 0` guard
fails); otherwise the per-exporter loop runs. -/
def export_service (w : World) (sr : ServiceReference) (ov : OverridingProps) :
    Except Err (List Nat) × World :=
  let intfs := getExportedInterfaces sr ov
  if intfs = [] then
    (.error ("ArgumentError: service.exported.interfaces must be set"), w)
  else
    match resolvedConfigs sr ov with
    | none => (.error ("KeyError: service.exported.configs"), w)
    | some configs =>
        if configs = [] then
          (.error ("ArgumentError: service.exported.configs must be set"), w)
        else
          let exporters := w.exporters.filter (fun ex => ex.handles configs)
          let errored := erroredEndpointDescription sr
          if exporters.length = 0 then
            let (rid, w1) := allocExpRegFromException w
              ("SelectExporterError: No exporter for " ++ String.intercalate "," configs)
              errored
            let w2 := addExportedService w1 rid
            (.ok [rid], w2)
          else
            exportLoop w exporters sr intfs (mergedExportProps sr ov configs) errored [] []

/-- `ImportRegistration.fromexception(exception, errored)`. -/
def allocImpRegFromException (w : World) (e : Err) (errored : EndpointDescription) :
    Nat × World :=
  let rid := w.nextId
  let st : ImportRegState :=
    { importref := some { endpoint := none, exception := some e, errored := some errored },
      rsaAttached := false, closed := false }
  (rid, { w with nextId := rid + 1, impRegs := (rid, st) :: w.impRegs })

/-- `ImportRegistration.fromendpoint(rsa, importer, ed, svc_reg)`. -/
def allocImpRegFromEndpoint (w : World) (imp : Importer) (ed : EndpointDescription)
    (svcReg : Nat) : Nat × World :=
  let eid := w.nextId
  let rid := w.nextId + 1
  let est : ImportEndpointState :=
    { rsaAttached := true, importer := some imp, ed := some ed, svcReg := some svcReg,
      activeRegistrations := [rid] }
  let rst : ImportRegState :=
    { importref := some { endpoint := some eid, exception := none, errored := none },
      rsaAttached := true, closed := false }
  let w1 : World :=
    { w with
        nextId := w.nextId + 2
        impEndpoints := (eid, est) :: w.impEndpoints
        impRegs := (rid, rst) :: w.impRegs }
  (rid, w1)

/-- `RemoteServiceAdmin.import_service(endpoint_description)`.  The result
value is the Python return value: `.ok none` models the implicit `return
None` reached when importers exist but none handles the remote
configuration types (the `if importer:` block has no else branch).  With
an empty importer list a failed registration is returned WITHOUT being
added to the registry.  The "already imported" scan appends to the local
`found_reg`, which is still None, so the first matching prior
registration raises AttributeError.  A provider failure during the
fresh import reaches `fromimporterror` called with three of its four
required arguments, raising TypeError. -/
def import_service (w : World) (ed : EndpointDescription) :
    Except Err (Option Nat) × World :=
  if ed.remoteConfigs = [] then
    (.error ("ArgumentError: endpoint_description must contain remote configs supported"), w)
  else if w.importers.length = 0 then
    let (rid, w1) := allocImpRegFromException w
      ("SelectImporterError: Could not find importer for exported_configs=" ++
        String.intercalate "," ed.remoteConfigs) ed
    (.ok (some rid), w1)
  else
    match w.importers.find? (fun imp => imp.handles ed.remoteConfigs) with
    | none => (.ok none, w)
    | some importer =>
        if w.importedRegs.any (fun r => ImportRegistration.matched w r ed) then
          (.error ("AttributeError: NoneType object has no attribute append"), w)
        else
          let w1 := w.logProviderCall importer.id ("make_proxy_props")
          match importer.makeProxyProps ed with
          | .error _ =>
              (.error ("TypeError: fromimporterror missing 1 required positional argument"), w1)
          | .ok proxyProps =>
              let w2 := w1.logProviderCall importer.id ("import_service")
              match importer.importService ed proxyProps with
              | .error _ =>
                  (.error ("TypeError: fromimporterror missing 1 required positional argument"), w2)
              | .ok svcReg =>
                  let (rid, w3) := allocImpRegFromEndpoint w2 importer ed svcReg
                  let ev : RSAEvent :=
                    { typ := 1, providerid := some importer.id, exception := none,
                      ed := some ed }
                  let w4 := addImportedService w3 rid
                  let w5 := publish_event w4 (some ev)
                  (.ok (some rid), w5)

/-- The export half of `_invalidate`:
`for reg in self._exported_regs: reg.close()`.  Python list iteration is
by index over the LIVE list: closing the last registration of an endpoint
removes it from `_exported_regs` mid-iteration, shifting the next
registration into the current slot where the iterator skips it.  `fuel`
only bounds the recursion; `exportedRegs.length + 1` always suffices
because the index grows and the list never grows. -/
def invalidateExportLoop (w : World) (i fuel : Nat) : Except Err Unit × World :=
  match fuel with
  | 0 => (.ok (), w)
  | fuel' + 1 =>
      match w.exportedRegs.get? i with
      | none => (.ok (), w)
      | some rid =>
          match ExportRegistration.close w rid with
          | (.error e, w1) => (.error e, w1)
          | (.ok _, w1) => invalidateExportLoop w1 (i + 1) fuel'

/-- The import half of `_invalidate`: the source clears the import
registry INSIDE the loop body (`self._imported_regs.clear()` is indented
under `reg.close()`), so after the first iteration the live list is empty
and iteration stops. -/
def invalidateImportLoop (w : World) (i fuel : Nat) : Except Err Unit × World :=
  match fuel with
  | 0 => (.ok (), w)
  | fuel' + 1 =>
      match w.importedRegs.get? i with
      | none => (.ok (), w)
      | some rid =>
          match ImportRegistration.close w rid with
          | (.error e, w1) => (.error e, w1)
          | (.ok _, w1) =>
              invalidateImportLoop { w1 with importedRegs := [] } (i + 1) fuel'

/-- `RemoteServiceAdmin._invalidate`: close every export registration and
clear the export registry, then the import loop (with the clear inside
its body). -/
def invalidate (w : World) : Except Err Unit × World :=
  match invalidateExportLoop w 0 (w.exportedRegs.length + 1) with
  | (.error e, w1) => (.error e, w1)
  | (.ok _, w1) =>
      let w2 := { w1 with exportedRegs := [] }
      match invalidateImportLoop w2 0 (w2.importedRegs.length + 1) with
      | (.error e, w3) => (.error e, w3)
      | (.ok _, w3) => (.ok (), w3)

/-- State of the host bundle context as the `AbstractRpcServiceImporter`
sees it: `register_service` hands out fresh registration ids, `registered`
is the set of currently registered (not yet unregistered) local proxy
registrations, and the ghost logs record the calls. -/
structure RpcContext where
  nextSvcRegId : Nat := 0
  registered : List Nat := []
  registerCalls : Nat := 0
  unregisterLog : List Nat := []

/-- `BundleContext.register_service`: registers a fresh local proxy
registration (modelled from the spec; the service registry is an external
collaborator). -/
def RpcContext.registerService (ctx : RpcContext) : Nat × RpcContext :=
  (ctx.nextSvcRegId,
    { ctx with
        nextSvcRegId := ctx.nextSvcRegId + 1
        registered := ctx.registered ++ [ctx.nextSvcRegId]
        registerCalls := ctx.registerCalls + 1 })

/-- `ServiceRegistration.unregister` (modelled from the spec: external
collaborator). -/
def RpcContext.unregister (ctx : RpcContext) (rid : Nat) : RpcContext :=
  { ctx with
      registered := ctx.registered.filter (fun r => r ≠ rid)
      unregisterLog := ctx.unregisterLog ++ [rid] }

/-- The private `__registrations` mapping of `AbstractRpcServiceImporter`
(endpoint id → local service registration), with Python dict semantics:
assignment replaces in place or appends. -/
structure RpcImporterState where
  registrations : List (String × Nat) := []

/-- `AbstractRpcServiceImporter.import_service(ed, proxy_props)`: build
the proxy (subclass-provided `get_service_proxy`, modelled as always
succeeding), register it with the context, and store the registration
under the endpoint id — an existing entry for the same id is overwritten. -/
def AbstractRpcServiceImporter.import_service (st : RpcImporterState) (ctx : RpcContext)
    (ed : EndpointDescription) : Nat × RpcImporterState × RpcContext :=
  let (rid, ctx1) := ctx.registerService
  (rid, { registrations := setA st.registrations ed.edId rid }, ctx1)

/-- `AbstractRpcServiceImporter.get_registration(endpointid)`. -/
def AbstractRpcServiceImporter.get_registration (st : RpcImporterState) (endpointid : String) :
    Option Nat :=
  lookupA st.registrations endpointid

/-- `AbstractRpcServiceImporter.unimport_service(ed)`: pop the endpoint
id; when present, unget the proxy and unregister it. -/
def AbstractRpcServiceImporter.unimport_service (st : RpcImporterState) (ctx : RpcContext)
    (ed : EndpointDescription) : Bool × RpcImporterState × RpcContext :=
  match lookupA st.registrations ed.edId with
  | none => (false, st, ctx)
  | some rid =>
      let st1 : RpcImporterState :=
        { registrations := st.registrations.filter (fun kv => kv.1 ≠ ed.edId) }
      (true, st1, ctx.unregister rid)

/-- `AbstractRpcServiceImporter.invalidate`: unregister every tracked
local registration in mapping order, then clear the mapping. -/
def AbstractRpcServiceImporter.invalidate (st : RpcImporterState) (ctx : RpcContext) :
    RpcImporterState × RpcContext :=
  let ctx1 := (st.registrations.map (fun kv => kv.2)).foldl RpcContext.unregister ctx
  ({ registrations := [] }, ctx1)

/-! Concrete providers, references and worlds used by the scenario
theorems and witnesses below. -/

/-- A well-behaved exporter handling the demo.rpc configuration type. -/
def exA : Exporter :=
  { id := "x1", handles := fun cfgs => cfgs.contains ("demo.rpc"),
    makeEndpointProps := fun intfs _ p => .ok { p with endpointId := "edX", interfaces := intfs },
    exportService := fun _ p => .ok (EndpointDescription.fromprops p),
    unexportService := fun _ => .ok true }

/-- A second well-behaved exporter handling the same configuration type. -/
def exB : Exporter :=
  { id := "x2", handles := fun cfgs => cfgs.contains ("demo.rpc"),
    makeEndpointProps := fun intfs _ p => .ok { p with endpointId := "edY", interfaces := intfs },
    exportService := fun _ p => .ok (EndpointDescription.fromprops p),
    unexportService := fun _ => .ok true }

/-- A well-behaved importer handling demo.rpc. -/
def imA : Importer :=
  { id := "i1", handles := fun cfgs => cfgs.contains ("demo.rpc"),
    makeProxyProps := fun _ => .ok {},
    importService := fun _ _ => .ok 100,
    unimportService := fun _ => .ok true }

/-- A second well-behaved importer handling demo.rpc, registered after
`imA`. -/
def imB : Importer :=
  { id := "i2", handles := fun cfgs => cfgs.contains ("demo.rpc"),
    makeProxyProps := fun _ => .ok {},
    importService := fun _ _ => .ok 200,
    unimportService := fun _ => .ok true }

/-- An importer that handles nothing. -/
def imNo : Importer :=
  { id := "i0", handles := fun _ => false,
    makeProxyProps := fun _ => .ok {},
    importService := fun _ _ => .ok 300,
    unimportService := fun _ => .ok true }

/-- A service reference exporting interface IFoo over demo.rpc. -/
def srA : ServiceReference :=
  { serviceId := 7, objectClass := ["IFoo"], exportedInterfaces := ["IFoo"],
    exportedConfigs := some ["demo.rpc"] }

/-- A second service reference. -/
def srB : ServiceReference :=
  { serviceId := 8, objectClass := ["IBar"], exportedInterfaces := ["IBar"],
    exportedConfigs := some ["demo.rpc"] }

/-- No overriding properties. -/
def ovNone : OverridingProps := {}

/-- A remote endpoint description supported over demo.rpc. -/
def edR : EndpointDescription :=
  { edId := "remote1", interfaces := ["IFoo"], remoteConfigs := ["demo.rpc"] }

/-- A second remote endpoint description. -/
def edR2 : EndpointDescription :=
  { edId := "remote2", interfaces := ["IFoo"], remoteConfigs := ["demo.rpc"] }

/-- World with one matching exporter. -/
def w1e : World := { exporters := [exA] }

/-- World with two matching exporters. -/
def w2e : World := { exporters := [exA, exB] }

/-- World with no exporters at all. -/
def w0e : World := { exporters := [] }

/-- World with one importer that matches nothing. -/
def wImpNoMatch : World := { importers := [imNo] }

/-- World with a non-matching importer followed by two matching ones. -/
def w8 : World := { importers := [imNo, imA, imB] }

/-- World holding 2 live export registrations (distinct endpoints) and 2
live import registrations, each registration the sole member of its
endpoint's active set — the state `_invalidate` is supposed to sweep.
Built with the same allocation path the successful export/import branches
use. -/
def wC6 : World :=
  let w0 : World := { exporters := [exA], importers := [imA] }
  let p1 := allocExpRegFromEndpoint w0 exA edR srA
  let w2 := addExportedService p1.2 p1.1
  let p2 := allocExpRegFromEndpoint w2 exA edR2 srB
  let w4 := addExportedService p2.2 p2.1
  let p3 := allocImpRegFromEndpoint w4 imA edR 100
  let w6 := addImportedService p3.2 p3.1
  let p4 := allocImpRegFromEndpoint w6 imA edR2 101
  addImportedService p4.2 p4.1

/-- World in which one export registration (id 1) and one import
registration (id 3) have both gone through a completed first close. -/
def wC5 : World :=
  let wa := (export_service { exporters := [exA], importers := [imA] } srA ovNone).2
  let wb := (import_service wa edR).2
  let wc := (ExportRegistration.close wb 1).2
  (ImportRegistration.close wc 3).2

/-- First `AbstractRpcServiceImporter.import_service` call for edR. -/
def rpcStep1 : Nat × RpcImporterState × RpcContext :=
  AbstractRpcServiceImporter.import_service {} {} edR

/-- Second call for the SAME endpoint id. -/
def rpcStep2 : Nat × RpcImporterState × RpcContext :=
  AbstractRpcServiceImporter.import_service rpcStep1.2.1 rpcStep1.2.2 edR

/-- The state of an export registration created by
`ExportRegistration.fromexception(e, d)` (a captured failure), exactly as
`allocExpRegFromException` builds it. -/
def failedExportRegState (e : Err) (d : EndpointDescription) : ExportRegState :=
  { exportref := some { endpoint := none, exception := some e, errored := some d },
    rsaAttached := false, closed := false, updateexception := none }

/-- World produced by an export attempt with zero matching exporters: its
registry holds one captured-failure registration (id 0). -/
def wFail : World := (export_service w0e srA ovNone).2

/-! Helper lemmas. -/

/-- Looking up the key just set. -/
theorem lookupA_setA_self {K α : Type} [DecidableEq K] (l : List (K × α)) (k : K) (v : α) :
    lookupA (setA l k v) k = some v := by
  induction l with
  | nil => simp [setA, lookupA]
  | cons kv rest ih =>
      by_cases h : kv.1 = k
      · simp [setA, h, lookupA]
      · simp [setA, h, lookupA, ih]

/-- Reading back an export-registration state just written. -/
theorem getExpReg_setExpReg (w : World) (rid : Nat) (st : ExportRegState) :
    (w.setExpReg rid st).getExpReg rid = some st := by
  simp [World.getExpReg, World.setExpReg, lookupA_setA_self]

/-- Keys of `setA` come from the old keys or are the new key. -/
theorem mem_keys_setA {K α : Type} [DecidableEq K] (l : List (K × α)) (k : K) (v : α)
    (x : K) (h : x ∈ (setA l k v).map Prod.fst) : x ∈ l.map Prod.fst ∨ x = k := by
  induction l with
  | nil =>
      rcases List.mem_map.mp h with ⟨kv, hmem, hfst⟩
      simp only [setA, List.mem_singleton] at hmem
      right; rw [← hfst, hmem]
  | cons kv0 rest ih =>
      rcases kv0 with ⟨k1, v1⟩
      by_cases hk : k1 = k
      · rw [show setA ((k1, v1) :: rest) k v = (k, v) :: rest from by simp [setA, hk]] at h
        rcases List.mem_map.mp h with ⟨kv, hmem, hfst⟩
        rcases List.mem_cons.mp hmem with h1 | h1
        · right; rw [← hfst, h1]
        · left
          exact List.mem_map.mpr ⟨kv, List.mem_cons_of_mem _ h1, hfst⟩
      · rw [show setA ((k1, v1) :: rest) k v = (k1, v1) :: setA rest k v from by
            simp [setA, hk]] at h
        rcases List.mem_map.mp h with ⟨kv, hmem, hfst⟩
        rcases List.mem_cons.mp hmem with h1 | h1
        · left
          exact List.mem_map.mpr ⟨kv, by simp [h1], hfst⟩
        · rcases ih (List.mem_map.mpr ⟨kv, h1, hfst⟩) with h2 | h2
          · left
            rcases List.mem_map.mp h2 with ⟨kv2, hmem2, hfst2⟩
            exact List.mem_map.mpr ⟨kv2, List.mem_cons_of_mem _ hmem2, hfst2⟩
          · right; exact h2

/-- Shifting a `range` map by one position. -/
theorem range_map_shift {β : Type} (n i : Nat) (f : Nat → β) :
    f i :: (List.range n).map (fun j => f (i + 1 + j)) =
    (List.range (n + 1)).map (fun j => f (i + j)) := by
  rw [List.range_succ_eq_map, List.map_cons, List.map_map]
  simp only [Nat.add_zero, Function.comp]
  congr 1
  apply List.map_congr_left
  intro j _
  congr 1
  omega

/-- Event delivery visits every listener in order and logs every raised
exception, no matter what the listeners do. -/
theorem publishEventGo_spec (ev : Option RSAEvent) (ls : List Listener) :
    ∀ (i : Nat) (w : World),
    (publishEventGo ev ls i w).delivered =
      w.delivered ++ (List.range ls.length).map (fun j => (i + j, ev)) ∧
    (publishEventGo ev ls i w).errorLog =
      w.errorLog ++ ls.filterMap (fun l => match l ev with | .ok _ => none | .error e => some e) := by
  induction ls with
  | nil => intro i w; simp [publishEventGo]
  | cons l rest ih =>
      intro i w
      simp only [publishEventGo, List.length_cons, List.filterMap_cons]
      cases hl : l ev with
      | ok u =>
          have h := ih (i + 1) { w with delivered := w.delivered ++ [(i, ev)] }
          simp only [hl]
          constructor
          · rw [h.1]
            show w.delivered ++ [(i, ev)] ++ _ = _
            rw [List.append_assoc, List.singleton_append]
            rw [range_map_shift rest.length i (fun k => (k, ev))]
          · rw [h.2]
      | error err =>
          have h := ih (i + 1)
            (World.logError { w with delivered := w.delivered ++ [(i, ev)] } err)
          simp only [hl]
          constructor
          · rw [h.1]
            show w.delivered ++ [(i, ev)] ++ _ = _
            rw [List.append_assoc, List.singleton_append]
            rw [range_map_shift rest.length i (fun k => (k, ev))]
          · rw [h.2]
            show w.errorLog ++ [err] ++ _ = _
            rw [List.append_assoc, List.singleton_append]

/-- Event delivery does not touch the provider-call log. -/
theorem publishEventGo_providerCalls (ev : Option RSAEvent) (ls : List Listener) :
    ∀ (i : Nat) (w : World), (publishEventGo ev ls i w).providerCalls = w.providerCalls := by
  induction ls with
  | nil => intro i w; simp [publishEventGo]
  | cons l rest ih =>
      intro i w
      rw [publishEventGo]
      cases hl : l ev with
      | ok u => simp only [hl]; rw [ih]
      | error e => simp only [hl]; rw [ih]; rfl

/-- `publish_event` does not touch the provider-call log. -/
theorem publish_event_providerCalls (w : World) (ev : Option RSAEvent) :
    (publish_event w ev).providerCalls = w.providerCalls := by
  rw [publish_event, publishEventGo_providerCalls]

/-- A successful `find?` splits the list at the first match. -/
theorem find?_eq_some_split {α : Type} (p : α → Bool) (l : List α) (a : α)
    (h : l.find? p = some a) :
    ∃ l1 l2, l = l1 ++ a :: l2 ∧ (∀ b ∈ l1, p b = false) := by
  induction l with
  | nil => simp [List.find?] at h
  | cons x xs ih =>
      cases hx : p x with
      | true =>
          rw [List.find?_cons_of_pos _ hx] at h
          refine ⟨[], xs, ?_, ?_⟩
          · simp only [Option.some.injEq] at h
            rw [h, List.nil_append]
          · intro b hb; exact absurd hb (List.not_mem_nil b)
      | false =>
          rw [List.find?_cons_of_neg _ (by simp [hx])] at h
          rcases ih h with ⟨l1, l2, heq, hall⟩
          refine ⟨x :: l1, l2, by rw [heq, List.cons_append], ?_⟩
          intro b hb
          rcases List.mem_cons.mp hb with h1 | h1
          · rw [h1]; exact hx
          · exact hall b h1

/-- Filtering with a predicate false on every member yields the empty
list. -/
theorem filter_false_eq_nil {α : Type} (p : α → Bool) (l : List α)
    (h : ∀ a ∈ l, p a = false) : l.filter p = [] := by
  induction l with
  | nil => rfl
  | cons x xs ih =>
      have hx := h x (List.mem_cons_self x xs)
      rw [List.filter_cons, hx]
      simp only [Bool.false_eq_true, if_false]
      exact ih (fun a ha => h a (List.mem_cons_of_mem _ ha))

/-- Unregistering a list of proxies appends exactly that list to the
unregister log. -/
theorem foldl_unregister_log (rs : List Nat) :
    ∀ ctx : RpcContext,
    (rs.foldl RpcContext.unregister ctx).unregisterLog = ctx.unregisterLog ++ rs := by
  induction rs with
  | nil => intro ctx; simp
  | cons r rest ih =>
      intro ctx
      rw [List.foldl_cons, ih]
      simp [RpcContext.unregister]

/-- `setA` preserves key uniqueness. -/
theorem nodup_keys_setA {K α : Type} [DecidableEq K] (l : List (K × α)) (k : K) (v : α)
    (h : (l.map Prod.fst).Nodup) : ((setA l k v).map Prod.fst).Nodup := by
  induction l with
  | nil => simp [setA]
  | cons kv rest ih =>
      simp only [List.map_cons, List.nodup_cons] at h
      by_cases hk : kv.1 = k
      · simp only [setA, hk, if_pos, List.map_cons, List.nodup_cons]
        exact ⟨fun hmem => h.1 (hk ▸ hmem), h.2⟩
      · simp only [setA, if_neg hk, List.map_cons, List.nodup_cons]
        refine ⟨fun hmem => ?_, ih h.2⟩
        rcases mem_keys_setA rest k v kv.1 hmem with h2 | h2
        · exact h.1 h2
        · exact hk h2

/-! The claims. -/

/-- Claim C1.  The claim says that calling export_service again for the
same (service_ref, exporter id) pair yields a second ExportRegistration
sharing the same _ExportEndpoint.  In fact the second call raises: the
registry scan calls `reg._match(svc_ref, exporterid)` on the live first
registration, and `_match` with a non-None cid reads the nonexistent
`containerid` attribute (and even past that, `fromreg` is invoked with a
superfluous `self` argument).  This theorem evaluates the code at the
failing input: the first export succeeds, the second raises
AttributeError instead of returning a sharing registration. -/
theorem c1_second_export_raises :
    (export_service w1e srA ovNone).1 = Except.ok [1] ∧
    (export_service (export_service w1e srA ovNone).2 srA ovNone).1 =
      Except.error ("AttributeError: ExportRegistration object has no attribute containerid") :=
  ⟨rfl, rfl⟩

/-- Claim C2.  The claim says export_service returns one registration per
matching exporter (k registrations for k matching exporters).  With one
matching exporter the call indeed returns exactly one registration, but
with two matching exporters the call raises AttributeError during the
second exporter's registry scan (the freshly added first registration is
live, and `_match` with a non-None cid reads the nonexistent
`containerid`), so no 2-element list is ever returned; the provider-call
log shows only the first exporter was ever invoked. -/
theorem c2_second_exporter_never_exports :
    (export_service w1e srA ovNone).1 = Except.ok [1] ∧
    (export_service w2e srA ovNone).1 =
      Except.error ("AttributeError: ExportRegistration object has no attribute containerid") ∧
    (export_service w2e srA ovNone).2.providerCalls =
      [("x1", "make_endpoint_props"), ("x1", "export_service")] :=
  ⟨rfl, rfl, rfl⟩

/-- Claim C4.  The claim says import_service returns a failed
ImportRegistration both when the importer list is empty and when it
contains no matching importer.  The code does so only for the empty list
(without touching the registry); with a non-matching importer present the
`if importer:` block is skipped and the function falls through, returning
None and leaving the world untouched. -/
theorem c4_no_matching_importer_returns_none :
    (import_service ({} : World) edR).1 = Except.ok (some 0) ∧
    (import_service ({} : World) edR).2.importedRegs = [] ∧
    (ImportRegistration.exception (import_service ({} : World) edR).2 0).isSome = true ∧
    (import_service wImpNoMatch edR).1 = Except.ok none ∧
    (import_service wImpNoMatch edR).2 = wImpNoMatch :=
  ⟨rfl, rfl, rfl, rfl, rfl⟩

/-- Claim C6.  The claim says deactivation closes every one of the N + M
live registrations and empties both registries.  Both registries do end
up empty, but with N = 2 live export registrations and M = 2 live import
registrations only 2 close attempts happen: closing the first export
registration removes it from the list being iterated (the iterator then
skips the second), and the import loop runs `clear()` inside its body, so
after the first import close the list is already empty.  Registrations 3
and 7 are never closed and their providers never unexported/unimported
(one unexport_service and one unimport_service call in total). -/
theorem c6_invalidate_skips_registrations :
    (invalidate wC6).1 = Except.ok () ∧
    (invalidate wC6).2.exportedRegs = [] ∧
    (invalidate wC6).2.importedRegs = [] ∧
    ((invalidate wC6).2.getExpReg 1).map (fun s => s.closed) = some true ∧
    ((invalidate wC6).2.getExpReg 3).map (fun s => s.closed) = some false ∧
    ((invalidate wC6).2.getImpReg 5).map (fun s => s.closed) = some true ∧
    ((invalidate wC6).2.getImpReg 7).map (fun s => s.closed) = some false ∧
    (invalidate wC6).2.providerCalls =
      [("x1", "unexport_service"), ("i1", "unimport_service")] :=
  ⟨rfl, rfl, rfl, rfl, rfl, rfl, rfl, rfl⟩

/-- Claim C7: for every published event, every registered listener is
invoked exactly once, in registration order, regardless of which
listeners raise; each raised exception is caught and appended to the log,
so a listener that always raises never prevents a later listener from
receiving every event. -/
theorem c7_listener_isolation (w : World) (ev : Option RSAEvent) :
    (publish_event w ev).delivered =
      w.delivered ++ (List.range w.listeners.length).map (fun i => (i, ev)) ∧
    (publish_event w ev).errorLog =
      w.errorLog ++ w.listeners.filterMap
        (fun l => match l ev with | .ok _ => none | .error e => some e) := by
  have h := publishEventGo_spec ev w.listeners 0 { w with published := w.published ++ [ev] }
  constructor
  · show (publishEventGo ev w.listeners 0 { w with published := w.published ++ [ev] }).delivered = _
    rw [h.1]
    simp
  · show (publishEventGo ev w.listeners 0 { w with published := w.published ++ [ev] }).errorLog = _
    exact h.2

/-- Claim C5: a second close() on a registration whose first close()
completed (its closed flag is set) is a perfect no-op: it returns without
error and leaves the entire world unchanged (no event published, no
provider call, registries untouched). -/
theorem c5_close_idempotent (w : World) (er ir : Nat)
    (he : (w.getExpReg er).map (fun s => s.closed) = some true)
    (hi : (w.getImpReg ir).map (fun s => s.closed) = some true) :
    ExportRegistration.close w er = (Except.ok (), w) ∧
    ImportRegistration.close w ir = (Except.ok (), w) := by
  rcases Option.map_eq_some'.mp he with ⟨est, hest, hec⟩
  rcases Option.map_eq_some'.mp hi with ⟨ist, hist, hic⟩
  constructor
  · simp [ExportRegistration.close, hest, hec]
  · simp [ImportRegistration.close, hist, hic]

/-- Witness for C5 at a concrete reachable world: one export and
one import registration, each already closed once. -/
theorem c5_witness :
    ExportRegistration.close wC5 1 = (Except.ok (), wC5) ∧
    ImportRegistration.close wC5 3 = (Except.ok (), wC5) :=
  c5_close_idempotent wC5 1 3 rfl rfl

/-- Claim C10: for an export registration created from a captured failure,
exception() returns the captured error before close(), close() succeeds,
and afterwards exception() returns None — the closed branch reads the
`__updateexception` field, which is initialized to None and never
assigned, erasing the only way to observe the captured error. -/
theorem c10_close_erases_exception (w : World) (rid : Nat) (e : Err)
    (d : EndpointDescription)
    (h : w.getExpReg rid = some (failedExportRegState e d)) :
    ExportRegistration.exception w rid = some e ∧
    (ExportRegistration.close w rid).1 = Except.ok () ∧
    ExportRegistration.exception (ExportRegistration.close w rid).2 rid = none := by
  refine ⟨?_, ?_, ?_⟩
  · simp [ExportRegistration.exception, h, failedExportRegState]
  · simp [ExportRegistration.close, h, failedExportRegState,
      ExportReference.exporterid, ExportReference.description, ExportReference.close]
  · simp [ExportRegistration.close, h, failedExportRegState,
      ExportReference.exporterid, ExportReference.description, ExportReference.close,
      ExportRegistration.exception, getExpReg_setExpReg]

/-- Witness for C10 at the concrete world produced by an export attempt
with zero matching exporters. -/
theorem c10_witness :
    ExportRegistration.exception wFail 0 =
      some ("SelectExporterError: No exporter for demo.rpc") ∧
    (ExportRegistration.close wFail 0).1 = Except.ok () ∧
    ExportRegistration.exception (ExportRegistration.close wFail 0).2 0 = none :=
  c10_close_erases_exception wFail 0 ("SelectExporterError: No exporter for demo.rpc")
    (erroredEndpointDescription srA) rfl

/-- Counterexample to claim C3 as stated: with zero matching exporters the
single returned registration does have a captured exception, but its
description() is None, NOT the computed errored EndpointDescription (the
errored description is stored inside the reference yet
`ExportReference.description` returns None whenever the endpoint is
None). -/
theorem c3_counterexample :
    (export_service w0e srA ovNone).1 = Except.ok [0] ∧
    (ExportRegistration.exception (export_service w0e srA ovNone).2 0).isSome = true ∧
    ExportRegistration.description (export_service w0e srA ovNone).2 0 = none :=
  ⟨rfl, rfl, rfl⟩

/-- Claim C3 as amended: with valid arguments and zero matching exporters,
export_service returns exactly one registration, adds it to the export
registry, its exception() is a non-None captured error, the errored
description is stored in its reference — but description() returns None
rather than that errored description. -/
theorem c3_amended_theorem (w : World) (sr : ServiceReference) (ov : OverridingProps)
    (cfgs : List String)
    (hintf : getExportedInterfaces sr ov ≠ [])
    (hconf : resolvedConfigs sr ov = some cfgs)
    (hcfgs : cfgs ≠ [])
    (hnone : ∀ ex ∈ w.exporters, ex.handles cfgs = false) :
    (export_service w sr ov).1 = Except.ok [w.nextId] ∧
    (export_service w sr ov).2.exportedRegs = w.exportedRegs ++ [w.nextId] ∧
    (ExportRegistration.exception (export_service w sr ov).2 w.nextId).isSome = true ∧
    ((export_service w sr ov).2.getExpReg w.nextId).map (fun s => s.exportref.bind (fun r => r.errored)) =
      some (some (erroredEndpointDescription sr)) ∧
    ExportRegistration.description (export_service w sr ov).2 w.nextId = none := by
  have hf := filter_false_eq_nil (fun ex => ex.handles cfgs) w.exporters hnone
  simp only [export_service, hconf, if_neg hintf, if_neg hcfgs, hf]
  refine ⟨rfl, rfl, ?_, ?_, ?_⟩
  · simp [addExportedService, allocExpRegFromException, ExportRegistration.exception,
      World.getExpReg, lookupA]
  · simp [addExportedService, allocExpRegFromException, World.getExpReg, lookupA]
  · simp [addExportedService, allocExpRegFromException, ExportRegistration.description,
      World.getExpReg, lookupA, ExportReference.description]

/-- Witness for the amended C3 at a concrete world with no exporters. -/
theorem c3_witness :
    (export_service w0e srA ovNone).1 = Except.ok [w0e.nextId] ∧
    (export_service w0e srA ovNone).2.exportedRegs = w0e.exportedRegs ++ [w0e.nextId] ∧
    (ExportRegistration.exception (export_service w0e srA ovNone).2 w0e.nextId).isSome = true ∧
    ((export_service w0e srA ovNone).2.getExpReg w0e.nextId).map (fun s => s.exportref.bind (fun r => r.errored)) =
      some (some (erroredEndpointDescription srA)) ∧
    ExportRegistration.description (export_service w0e srA ovNone).2 w0e.nextId = none :=
  c3_amended_theorem w0e srA ovNone ["demo.rpc"] (by decide) rfl (by decide)
    (fun ex hx => absurd hx (List.not_mem_nil ex))

/-- Claim C8: when at least two registered importers handle the endpoint
description's remote configuration types (and no prior matching
registration is in the import registry, and the first matching importer's
calls succeed), import_service splits the importer list at the FIRST
matching importer — every importer registered before it does not handle
the configs — and the only provider calls made are that importer's
make_proxy_props and import_service; no later-registered importer is
invoked. -/
theorem c8_first_match_import (w : World) (ed : EndpointDescription) (imp : Importer)
    (p : Props) (sid : Nat)
    (hcfg : ed.remoteConfigs ≠ [])
    (hfind : w.importers.find? (fun i => i.handles ed.remoteConfigs) = some imp)
    (_htwo : 2 ≤ (w.importers.filter (fun i => i.handles ed.remoteConfigs)).length)
    (hnoreg : w.importedRegs.any (fun r => ImportRegistration.matched w r ed) = false)
    (hmpp : imp.makeProxyProps ed = Except.ok p)
    (his : imp.importService ed p = Except.ok sid) :
    (∃ pre post, w.importers = pre ++ imp :: post ∧
      ∀ b ∈ pre, b.handles ed.remoteConfigs = false) ∧
    (import_service w ed).2.providerCalls =
      w.providerCalls ++ [(imp.id, "make_proxy_props"), (imp.id, "import_service")] := by
  constructor
  · exact find?_eq_some_split _ _ _ hfind
  · have hlen : ¬ w.importers.length = 0 := by
      rcases find?_eq_some_split _ _ _ hfind with ⟨l1, l2, heq, _⟩
      rw [heq]; simp
    simp only [import_service, if_neg hcfg, if_neg hlen, hfind, hnoreg,
      Bool.false_eq_true, if_false, hmpp, his]
    rw [publish_event_providerCalls]
    simp [addImportedService, allocImpRegFromEndpoint, World.logProviderCall]

/-- Witness for C8: three importers, the last two both handling demo.rpc;
only the first matching one (imA) is invoked. -/
theorem c8_witness :
    (∃ pre post, w8.importers = pre ++ imA :: post ∧
      ∀ b ∈ pre, b.handles edR.remoteConfigs = false) ∧
    (import_service w8 edR).2.providerCalls =
      w8.providerCalls ++ [(imA.id, "make_proxy_props"), (imA.id, "import_service")] :=
  c8_first_match_import w8 edR imA {} 100 (by decide) rfl (by decide) rfl rfl rfl

/-- Counterexample to claim C9 as stated: a second
AbstractRpcServiceImporter.import_service call for the SAME endpoint id
is neither rejected nor reuses the tracked registration: it registers a
second, distinct local proxy registration (register_service called twice,
both proxies still registered) and silently overwrites the mapping entry,
dropping the first registration without ever unregistering it. -/
theorem c9_counterexample :
    rpcStep1.1 = 0 ∧
    rpcStep2.1 = 1 ∧
    rpcStep2.2.2.registerCalls = 2 ∧
    rpcStep2.2.2.registered = [0, 1] ∧
    rpcStep2.2.1.registrations = [("remote1", 1)] ∧
    rpcStep2.2.2.unregisterLog = [] :=
  ⟨rfl, rfl, rfl, rfl, rfl, rfl⟩

/-- Claim C9 as amended: a repeated import_service call for the same
endpoint id registers a fresh local proxy and overwrites the mapping
entry (dropping the previously tracked registration without
unregistering it); the mapping still holds at most one registration per
endpoint id; and importer deactivation unregisters every proxy tracked at
that moment and clears the mapping. -/
theorem c9_amended_theorem (st : RpcImporterState) (ctx : RpcContext)
    (ed : EndpointDescription)
    (hnd : (st.registrations.map Prod.fst).Nodup) :
    (((AbstractRpcServiceImporter.import_service st ctx ed).2.1.registrations).map Prod.fst).Nodup ∧
    AbstractRpcServiceImporter.get_registration
      (AbstractRpcServiceImporter.import_service st ctx ed).2.1 ed.edId = some ctx.nextSvcRegId ∧
    (AbstractRpcServiceImporter.import_service st ctx ed).2.2.registerCalls = ctx.registerCalls + 1 ∧
    (AbstractRpcServiceImporter.import_service st ctx ed).2.2.unregisterLog = ctx.unregisterLog ∧
    (AbstractRpcServiceImporter.invalidate st ctx).2.unregisterLog =
      ctx.unregisterLog ++ st.registrations.map (fun kv => kv.2) ∧
    (AbstractRpcServiceImporter.invalidate st ctx).1.registrations = [] := by
  refine ⟨?_, ?_, ?_, ?_, ?_, ?_⟩
  · exact nodup_keys_setA st.registrations ed.edId ctx.nextSvcRegId hnd
  · exact lookupA_setA_self st.registrations ed.edId ctx.nextSvcRegId
  · rfl
  · rfl
  · exact foldl_unregister_log (st.registrations.map (fun kv => kv.2)) ctx
  · rfl

/-- Witness for the amended C9 at the state reached after one
prior import of the same endpoint id. -/
theorem c9_witness :
    (((AbstractRpcServiceImporter.import_service rpcStep1.2.1 rpcStep1.2.2 edR).2.1.registrations).map Prod.fst).Nodup ∧
    AbstractRpcServiceImporter.get_registration
      (AbstractRpcServiceImporter.import_service rpcStep1.2.1 rpcStep1.2.2 edR).2.1 edR.edId =
        some rpcStep1.2.2.nextSvcRegId ∧
    (AbstractRpcServiceImporter.import_service rpcStep1.2.1 rpcStep1.2.2 edR).2.2.registerCalls =
      rpcStep1.2.2.registerCalls + 1 ∧
    (AbstractRpcServiceImporter.import_service rpcStep1.2.1 rpcStep1.2.2 edR).2.2.unregisterLog =
      rpcStep1.2.2.unregisterLog ∧
    (AbstractRpcServiceImporter.invalidate rpcStep1.2.1 rpcStep1.2.2).2.unregisterLog =
      rpcStep1.2.2.unregisterLog ++ rpcStep1.2.1.registrations.map (fun kv => kv.2) ∧
    (AbstractRpcServiceImporter.invalidate rpcStep1.2.1 rpcStep1.2.2).1.registrations = [] :=
  c9_amended_theorem rpcStep1.2.1 rpcStep1.2.2 edR (by decide)

end Pelix
